import Mathlib

/-!
Verification development for SnapTrack: a shallow embedding of the song-queue
store, the integrations registry, the sync reconciliation engine
(`syncSongToPlatform`, `syncSingleSong`, `syncAllSongs` in `app/(tabs)/queue.tsx`),
the batch intake pipeline (`startProcessing` in the capture screen), and the
flagged-images ledger (`processingService`), together with theorems settling
the specification claims about them.

Modelling conventions:
* `async` network/storage calls that can reject are modelled as `Except String α`
  values supplied by an oracle record; a thrown `Error` is `.error msg` with
  `msg` the error message.
* `AsyncStorage` holds JSON-serialised values; the stored payload is modelled
  as the already-decoded value (`Option α`: `none` models an absent key), and a
  read failure as `.error`.
* React `useState` bindings captured by an event handler's closure are
  `const`s for the whole invocation; a state setter only affects later renders.
  Such a captured value is passed as an explicit parameter (see `syncAllSongs`).
-/

namespace SnapTrack

/-- The closed platform id set, `IntegrationPlatform` in `songQueueService`. -/
inductive IntegrationPlatform where
  | spotify
  | youtube
  | apple_music
  | amazon_music
deriving DecidableEq, Repr

/-- One entry of `QueuedSong.syncStatus`: `{ synced, trackId?, videoId?, error? }`.
The source types the Spotify/Apple/Amazon entries with `trackId?` and the
YouTube entry with `videoId?`; one structure with both optional fields covers
all four. -/
structure SyncStatus where
  synced : Bool
  trackId : Option String := none
  videoId : Option String := none
  error : Option String := none
deriving DecidableEq, Repr

/-- The sparse per-platform record `QueuedSong.syncStatus`: one optional entry
per platform key, absence meaning "never attempted". -/
structure SyncStatusMap where
  spotify : Option SyncStatus := none
  youtube : Option SyncStatus := none
  apple_music : Option SyncStatus := none
  amazon_music : Option SyncStatus := none
deriving DecidableEq, Repr

/-- Read the entry under platform key `p` (`song.syncStatus[platform]`). -/
def SyncStatusMap.get (m : SyncStatusMap) : IntegrationPlatform → Option SyncStatus
  | .spotify => m.spotify
  | .youtube => m.youtube
  | .apple_music => m.apple_music
  | .amazon_music => m.amazon_music

/-- Overwrite the entry under platform key `p`
(`queue[songIndex].syncStatus[platform] = status`). -/
def SyncStatusMap.set (m : SyncStatusMap) (p : IntegrationPlatform) (st : SyncStatus) : SyncStatusMap :=
  match p with
  | .spotify => { m with spotify := some st }
  | .youtube => { m with youtube := some st }
  | .apple_music => { m with apple_music := some st }
  | .amazon_music => { m with amazon_music := some st }

/-- `QueuedSong` from `songQueueService`. -/
structure QueuedSong where
  id : String
  title : String
  artist : String
  album : Option String := none
  imageUrl : Option String := none
  detectedAt : Nat
  sourceImageUri : Option String := none
  syncStatus : SyncStatusMap
deriving DecidableEq, Repr

/-- `updateSongSyncStatus` (`songQueueService`), as the pure transformation it
performs on the stored queue: `findIndex` locates the first song whose `id`
matches; if none matches the function returns with the store untouched,
otherwise that song's entry for `platform` is overwritten and the whole queue
written back. -/
def updateSongSyncStatus (queue : List QueuedSong) (songId : String)
    (platform : IntegrationPlatform) (status : SyncStatus) : List QueuedSong :=
  match queue with
  | [] => []
  | s :: rest =>
    if s.id = songId then
      { s with syncStatus := s.syncStatus.set platform status } :: rest
    else
      s :: updateSongSyncStatus rest songId platform status

/-- The stored sync status of the first song with id `songId`, under platform
`platform` (lookup helper used by the theorems). -/
def statusOf (queue : List QueuedSong) (songId : String)
    (platform : IntegrationPlatform) : Option SyncStatus :=
  match queue with
  | [] => none
  | s :: rest => if s.id = songId then s.syncStatus.get platform else statusOf rest songId platform

/-- `IntegrationConfig` from `integrationsService`. -/
structure IntegrationConfig where
  platform : IntegrationPlatform
  name : String
  description : String
  connected : Bool
  available : Bool
  selectedPlaylistId : Option String := none
  selectedPlaylistName : Option String := none
  lastSyncAt : Option Nat := none
  error : Option String := none
deriving DecidableEq, Repr

/-- `IntegrationsState` from `integrationsService`: one config per platform. -/
structure IntegrationsState where
  spotify : IntegrationConfig
  youtube : IntegrationConfig
  apple_music : IntegrationConfig
  amazon_music : IntegrationConfig
deriving DecidableEq, Repr

/-- `DEFAULT_INTEGRATIONS` from `integrationsService`. -/
def DEFAULT_INTEGRATIONS : IntegrationsState :=
  { spotify :=
      { platform := .spotify
        name := "Spotify"
        description := "Stream and save to Spotify playlists"
        connected := false
        available := true }
    youtube :=
      { platform := .youtube
        name := "YouTube Music"
        description := "Save to YouTube playlists"
        connected := false
        available := true }
    apple_music :=
      { platform := .apple_music
        name := "Apple Music"
        description := "Coming soon"
        connected := false
        available := false }
    amazon_music :=
      { platform := .amazon_music
        name := "Amazon Music"
        description := "Coming soon"
        connected := false
        available := false } }

/-- `getConnectedPlatforms` (`queue.tsx`): the active platform set, `[]` while
the integrations state has not loaded; it pushes `spotify` and then `youtube`
exactly when the platform is connected and a playlist is selected. -/
def getConnectedPlatforms (integrations : Option IntegrationsState) : List IntegrationPlatform :=
  match integrations with
  | none => []
  | some st =>
    (if st.spotify.connected && st.spotify.selectedPlaylistId.isSome
      then [IntegrationPlatform.spotify] else []) ++
    (if st.youtube.connected && st.youtube.selectedPlaylistId.isSome
      then [IntegrationPlatform.youtube] else [])

/-- `SongSearchResult` from `spotifyService`. -/
structure SongSearchResult where
  trackId : String
  name : String
  artist : String
  album : String
  imageUrl : Option String := none
deriving DecidableEq, Repr

/-- `YouTubeSearchResult` from `youtubeService`. -/
structure YouTubeSearchResult where
  videoId : String
  title : String
  channelTitle : String
  thumbnailUrl : Option String := none
deriving DecidableEq, Repr

/-- The platform catalog collaborators consumed by the sync engine: each call
either resolves (`.ok`) or rejects with an error message (`.error`). Playlist
membership sets (`Set<string>` in the source) are modelled as lists queried
with `contains`. -/
structure SyncOracle where
  getPlaylistTracks : String → Except String (List String)
  searchSong : String → String → Except String (Option SongSearchResult)
  addTracksToPlaylist : String → List String → Except String Unit
  getPlaylistVideoIds : String → Except String (List String)
  searchYouTubeVideo : String → String → Except String (Option YouTubeSearchResult)
  addVideoToPlaylist : String → String → Except String Unit

/-- Result of a sync run: the stored queue afterwards, and how many
add-to-playlist calls were issued (a call that rejects still counts as
issued). -/
structure SyncRunResult where
  store : List QueuedSong
  addCalls : Nat
deriving DecidableEq, Repr

/-- `syncSongToPlatform` (`queue.tsx`): single song × platform reconciliation.
`integrations` is the component's snapshot (`if (!integrations) return;`),
`store` the stored queue that `updateSongSyncStatus` reads and writes. The
source's non-null assertion `selectedPlaylistId!` passes `undefined` along
when no playlist is selected; modelled by `getD "undefined"`. Each branch
mirrors the await sequence membership-fetch, search, (add), status write; the
surrounding `try`/`catch` turns any rejection into a
`{ synced: false, error }` write. For `apple_music` / `amazon_music` no
branch matches and the function returns with no effect. -/
def syncSongToPlatform (o : SyncOracle) (integrations : Option IntegrationsState)
    (song : QueuedSong) (platform : IntegrationPlatform)
    (store : List QueuedSong) : SyncRunResult :=
  match integrations with
  | none => { store := store, addCalls := 0 }
  | some integ =>
    match platform with
    | .spotify =>
      let playlistId := integ.spotify.selectedPlaylistId.getD "undefined"
      let step : Except String (List QueuedSong) × Nat :=
        match o.getPlaylistTracks playlistId with
        | .error e => (.error e, 0)
        | .ok existingTracks =>
          match o.searchSong song.title song.artist with
          | .error e => (.error e, 0)
          | .ok none =>
            (.ok (updateSongSyncStatus store song.id .spotify
              { synced := false, error := some "Song not found on Spotify" }), 0)
          | .ok (some searchResult) =>
            if existingTracks.contains searchResult.trackId then
              (.ok (updateSongSyncStatus store song.id .spotify
                { synced := true, trackId := some searchResult.trackId }), 0)
            else
              match o.addTracksToPlaylist playlistId [searchResult.trackId] with
              | .ok _ =>
                (.ok (updateSongSyncStatus store song.id .spotify
                  { synced := true, trackId := some searchResult.trackId }), 1)
              | .error e => (.error e, 1)
      match step with
      | (.ok newStore, n) => { store := newStore, addCalls := n }
      | (.error e, n) =>
        { store := updateSongSyncStatus store song.id .spotify
            { synced := false, error := some e }
          addCalls := n }
    | .youtube =>
      let playlistId := integ.youtube.selectedPlaylistId.getD "undefined"
      let step : Except String (List QueuedSong) × Nat :=
        match o.getPlaylistVideoIds playlistId with
        | .error e => (.error e, 0)
        | .ok existingVideos =>
          match o.searchYouTubeVideo song.title song.artist with
          | .error e => (.error e, 0)
          | .ok none =>
            (.ok (updateSongSyncStatus store song.id .youtube
              { synced := false, error := some "Video not found on YouTube" }), 0)
          | .ok (some searchResult) =>
            if existingVideos.contains searchResult.videoId then
              (.ok (updateSongSyncStatus store song.id .youtube
                { synced := true, videoId := some searchResult.videoId }), 0)
            else
              match o.addVideoToPlaylist playlistId searchResult.videoId with
              | .ok _ =>
                (.ok (updateSongSyncStatus store song.id .youtube
                  { synced := true, videoId := some searchResult.videoId }), 1)
              | .error e => (.error e, 1)
      match step with
      | (.ok newStore, n) => { store := newStore, addCalls := n }
      | (.error e, n) =>
        { store := updateSongSyncStatus store song.id .youtube
            { synced := false, error := some e }
          addCalls := n }
    | .apple_music => { store := store, addCalls := 0 }
    | .amazon_music => { store := store, addCalls := 0 }

/-- Truthiness of `song.syncStatus[platform]?.synced` (absent entry is falsy). -/
def syncedFlag (song : QueuedSong) (platform : IntegrationPlatform) : Bool :=
  match song.syncStatus.get platform with
  | some st => st.synced
  | none => false

/-- The inner platform loop shared by `syncAllSongs` and `syncSingleSong`:
for each active platform, skip it when the snapshot song already shows
`synced`, else reconcile. -/
def syncPlatformsForSong (o : SyncOracle) (integrations : Option IntegrationsState)
    (platforms : List IntegrationPlatform) (song : QueuedSong)
    (store : List QueuedSong) : SyncRunResult :=
  match platforms with
  | [] => { store := store, addCalls := 0 }
  | p :: rest =>
    if syncedFlag song p then
      syncPlatformsForSong o integrations rest song store
    else
      let r := syncSongToPlatform o integrations song p store
      let r2 := syncPlatformsForSong o integrations rest song r.store
      { store := r2.store, addCalls := r.addCalls + r2.addCalls }

/-- `syncSingleSong` (`queue.tsx`): alert-and-return when no platform is
active, else run the platform loop for the tapped song. -/
def syncSingleSong (o : SyncOracle) (integrations : Option IntegrationsState)
    (song : QueuedSong) (store : List QueuedSong) : SyncRunResult :=
  let platforms := getConnectedPlatforms integrations
  if platforms.isEmpty then { store := store, addCalls := 0 }
  else syncPlatformsForSong o integrations platforms song store

/-- The `for (const song of queue)` loop of `syncAllSongs`. `syncingAtCall` is
the value of the captured `syncing` state binding: a `const` of the render
that created the handler, unchanged for the whole invocation (the
`setSyncing(true)` call only affects later renders), so the guard
`if (syncing === false) break;` tests the same value at every iteration. -/
def syncAllSongsLoop (o : SyncOracle) (integrations : Option IntegrationsState)
    (platforms : List IntegrationPlatform) (syncingAtCall : Bool)
    (queue : List QueuedSong) (store : List QueuedSong) : SyncRunResult :=
  match queue with
  | [] => { store := store, addCalls := 0 }
  | song :: rest =>
    if syncingAtCall = false then { store := store, addCalls := 0 }
    else
      let r := syncPlatformsForSong o integrations platforms song store
      let r2 := syncAllSongsLoop o integrations platforms syncingAtCall rest r.store
      { store := r2.store, addCalls := r.addCalls + r2.addCalls }

/-- `syncAllSongs` (`queue.tsx`): alert-and-return when no platform is active,
else run the song loop over the component's queue snapshot. The sync button is
rendered with `disabled={syncing}`, so every reachable invocation has
`syncingAtCall = false`. -/
def syncAllSongs (o : SyncOracle) (integrations : Option IntegrationsState)
    (syncingAtCall : Bool) (queue : List QueuedSong)
    (store : List QueuedSong) : SyncRunResult :=
  let platforms := getConnectedPlatforms integrations
  if platforms.isEmpty then { store := store, addCalls := 0 }
  else syncAllSongsLoop o integrations platforms syncingAtCall queue store

/-- Detection confidence (`'high' | 'medium' | 'low'` in `songDetectionService`). -/
inductive Confidence where
  | high
  | medium
  | low
deriving DecidableEq, Repr

/-- `DetectedSong` from `songDetectionService`. -/
structure DetectedSong where
  title : String
  artist : String
  confidence : Confidence
deriving DecidableEq, Repr

/-- `SongDetectionResult` from `songDetectionService`. -/
structure SongDetectionResult where
  success : Bool
  songs : List DetectedSong
  error : Option String := none
  rawResponse : Option String := none
deriving DecidableEq, Repr

/-- The song fields the capture screen stages for `addSongsToQueue`
(`Omit<QueuedSong, 'id' | 'detectedAt' | 'syncStatus'>` there is built with
exactly `title`, `artist`, `sourceImageUri`). -/
structure SongInput where
  title : String
  artist : String
  sourceImageUri : String
deriving DecidableEq, Repr

/-- What one loop iteration of the capture screen's `startProcessing` produces
for its image: the `addFlaggedImage(imageUri, error)` calls it issues, and the
songs it pushes onto the staged `songsToAdd`. -/
structure ImageIntakeOutcome where
  flags : List (String × String)
  songsToAdd : List SongInput
deriving DecidableEq, Repr

/-- One iteration of `startProcessing`'s image loop (capture screen): invoke
`detectSongsFromImage`; on `success` with at least one song stage the songs
(no flag); otherwise flag with `detection.error || 'No songs detected'`; a
rejection lands in the `catch`, which flags with the thrown message. -/
def intakeImage (detect : String → Except String SongDetectionResult)
    (imageUri : String) : ImageIntakeOutcome :=
  match detect imageUri with
  | .ok detection =>
    if detection.success && !detection.songs.isEmpty then
      { flags := []
        songsToAdd := detection.songs.map (fun s =>
          { title := s.title, artist := s.artist, sourceImageUri := imageUri }) }
    else
      { flags := [(imageUri, detection.error.getD "No songs detected")], songsToAdd := [] }
  | .error msg =>
    { flags := [(imageUri, msg)], songsToAdd := [] }

/-- Observable store events of the batch intake pipeline, in order:
`addFlaggedImage` writes and the final `addSongsToQueue` batch append. -/
inductive IntakeEvent where
  | flag (imageUri errorMsg : String)
  | appendBatch (songs : List SongInput)
deriving DecidableEq, Repr

/-- Whether an intake event is the queue batch append. -/
def IntakeEvent.isAppend : IntakeEvent → Bool
  | .appendBatch _ => true
  | .flag _ _ => false

/-- The image loop of `startProcessing`: per-image flag events in image
order, and the staged `songsToAdd` accumulated across the whole batch. -/
def intakeLoop (detect : String → Except String SongDetectionResult) :
    List String → List IntakeEvent × List SongInput
  | [] => ([], [])
  | imageUri :: rest =>
    let outcome := intakeImage detect imageUri
    let (events, songs) := intakeLoop detect rest
    (outcome.flags.map (fun f => IntakeEvent.flag f.1 f.2) ++ events,
      outcome.songsToAdd ++ songs)

/-- `startProcessing` (capture screen), as its trace of store events: the
image loop runs first; afterwards, `if (songsToAdd.length > 0)` a single
`addSongsToQueue(songsToAdd)` commits the staged songs. -/
def startProcessing (detect : String → Except String SongDetectionResult)
    (images : List String) : List IntakeEvent :=
  let (events, songsToAdd) := intakeLoop detect images
  events ++ (if songsToAdd.isEmpty then [] else [IntakeEvent.appendBatch songsToAdd])

/-- `FlaggedImage` from `processingService`. -/
structure FlaggedImage where
  id : String
  imageUri : String
  error : String
  timestamp : Nat
deriving DecidableEq, Repr

/-- `addFlaggedImage` (`processingService`): pushes a record whose `id` is
`Date.now().toString()` and whose `timestamp` is the same `Date.now()` value
(`now` is the current millisecond clock reading). -/
def addFlaggedImage (flagged : List FlaggedImage) (now : Nat)
    (imageUri errorMsg : String) : List FlaggedImage :=
  flagged ++ [{ id := toString now, imageUri := imageUri, error := errorMsg, timestamp := now }]

/-- `removeFlaggedImage` (`processingService`): keeps exactly the records
whose `id` differs from the given one. -/
def removeFlaggedImage (flagged : List FlaggedImage) (id : String) : List FlaggedImage :=
  flagged.filter (fun img => img.id ≠ id)

/-- `getSongQueue` (`songQueueService`) over the raw durable read:
`AsyncStorage.getItem` either rejects (`.error`), finds no value (`.ok none`),
or yields the stored queue. The result type is what the returned promise can
do for the caller: resolve (`.ok`) or reject (`.error`). An absent key returns
`[]`; the `catch` block logs and returns `[]` as well. -/
def getSongQueue (raw : Except String (Option (List QueuedSong))) :
    Except String (List QueuedSong) :=
  match raw with
  | .error _ => .ok []
  | .ok none => .ok []
  | .ok (some queue) => .ok queue

/-- `getIntegrations` (`integrationsService`) over the raw durable read: an
absent key returns `DEFAULT_INTEGRATIONS`; a stored record is spread over the
defaults (`{ ...DEFAULT_INTEGRATIONS, ...stored }` — the stored state carries
all four platform keys, so the spread yields the stored record); the `catch`
block logs and returns `DEFAULT_INTEGRATIONS`. -/
def getIntegrations (raw : Except String (Option IntegrationsState)) :
    Except String IntegrationsState :=
  match raw with
  | .error _ => .ok DEFAULT_INTEGRATIONS
  | .ok none => .ok DEFAULT_INTEGRATIONS
  | .ok (some stored) => .ok stored

/-- `getFlaggedImages` (`processingService`) over the raw durable read: an
absent key returns `[]`; the `catch` block returns `[]`. -/
def getFlaggedImages (raw : Except String (Option (List FlaggedImage))) :
    Except String (List FlaggedImage) :=
  match raw with
  | .error _ => .ok []
  | .ok none => .ok []
  | .ok (some flagged) => .ok flagged

/-! Concrete fixtures used by witness and counterexample theorems. -/

/-- A synced Spotify status with its remote id recorded. -/
def wSyncedSt : SyncStatus := { synced := true, trackId := some "T1" }

/-- A song already synced to Spotify. -/
def wSongSynced : QueuedSong :=
  { id := "s1", title := "Yesterday", artist := "The Beatles", detectedAt := 0
    syncStatus := { spotify := some wSyncedSt } }

/-- A song with no sync attempts recorded. -/
def wSongFresh : QueuedSong :=
  { id := "s2", title := "Help", artist := "The Beatles", detectedAt := 1, syncStatus := {} }

/-- Integrations with Spotify connected and playlist `P1` selected. -/
def wIntegrations : IntegrationsState :=
  { DEFAULT_INTEGRATIONS with
    spotify := { DEFAULT_INTEGRATIONS.spotify with
      connected := true, selectedPlaylistId := some "P1" } }

/-- An oracle whose every call rejects. -/
def wOracleDown : SyncOracle :=
  { getPlaylistTracks := fun _ => .error "network down"
    searchSong := fun _ _ => .error "network down"
    addTracksToPlaylist := fun _ _ => .error "network down"
    getPlaylistVideoIds := fun _ => .error "network down"
    searchYouTubeVideo := fun _ _ => .error "network down"
    addVideoToPlaylist := fun _ _ => .error "network down" }

/-- An oracle where playlist `P1` already contains `T1` / `V1` and search finds
`T1` / `V1`; adds succeed. -/
def wOracleDup : SyncOracle :=
  { getPlaylistTracks := fun _ => .ok ["T1"]
    searchSong := fun _ _ => .ok (some { trackId := "T1", name := "Yesterday", artist := "The Beatles", album := "Help!" })
    addTracksToPlaylist := fun _ _ => .ok ()
    getPlaylistVideoIds := fun _ => .ok ["V1"]
    searchYouTubeVideo := fun _ _ => .ok (some { videoId := "V1", title := "Yesterday", channelTitle := "The Beatles" })
    addVideoToPlaylist := fun _ _ => .ok () }

/-- An oracle where playlist `P1` is empty, search finds `T1` / `V1`, and adds
succeed. -/
def wOracleEmptyPl : SyncOracle :=
  { wOracleDup with
    getPlaylistTracks := fun _ => .ok []
    getPlaylistVideoIds := fun _ => .ok [] }

/-- An oracle where membership fetches succeed but the catalog searches
reject. -/
def wOracleSearchFail : SyncOracle :=
  { wOracleDup with
    searchSong := fun _ _ => .error "Search failed"
    searchYouTubeVideo := fun _ _ => .error "YouTube search failed" }

/-- An oracle where membership is empty, searches find `T1` / `V1`, and the
add calls reject. -/
def wOracleAddFail : SyncOracle :=
  { wOracleDup with
    getPlaylistTracks := fun _ => .ok []
    getPlaylistVideoIds := fun _ => .ok []
    addTracksToPlaylist := fun _ _ => .error "Failed to add tracks"
    addVideoToPlaylist := fun _ _ => .error "Failed to add video to playlist" }

/-- A detection adapter that always rejects. -/
def wDetectThrow : String → Except String SongDetectionResult :=
  fun _ => .error "Detection failed"

/-- A detection adapter that succeeds with one high-confidence song. -/
def wDetectOne : String → Except String SongDetectionResult :=
  fun _ => .ok { success := true
                 songs := [{ title := "Yesterday", artist := "The Beatles", confidence := .high }] }

/-!
Helper lemmas: frame properties of `updateSongSyncStatus` and the shape of a
`syncSongToPlatform` run, shared by the claim theorems below.
-/

theorem syncStatusMap_get_set_self (m : SyncStatusMap) (p : IntegrationPlatform)
    (st : SyncStatus) : (m.set p st).get p = some st := by
  cases p <;> rfl

theorem syncStatusMap_get_set_ne (m : SyncStatusMap) (p q : IntegrationPlatform)
    (st : SyncStatus) (h : q ≠ p) : (m.set p st).get q = m.get q := by
  cases p <;> cases q <;> first
    | rfl
    | exact absurd rfl h

theorem statusOf_update_ne_platform (queue : List QueuedSong) (songId readId : String)
    (pl p : IntegrationPlatform) (st : SyncStatus) (h : p ≠ pl) :
    statusOf (updateSongSyncStatus queue songId pl st) readId p = statusOf queue readId p := by
  induction queue with
  | nil => rfl
  | cons s rest ih =>
    by_cases hs : s.id = songId
    · simp only [updateSongSyncStatus, if_pos hs, statusOf]
      by_cases hid : s.id = readId
      · simp only [if_pos hid, syncStatusMap_get_set_ne _ _ _ _ h]
      · simp only [if_neg hid]
    · simp only [updateSongSyncStatus, if_neg hs, statusOf]
      by_cases hid : s.id = readId
      · simp only [if_pos hid]
      · simp only [if_neg hid, ih]

theorem statusOf_update_ne_id (queue : List QueuedSong) (songId readId : String)
    (pl p : IntegrationPlatform) (st : SyncStatus) (h : readId ≠ songId) :
    statusOf (updateSongSyncStatus queue songId pl st) readId p = statusOf queue readId p := by
  induction queue with
  | nil => rfl
  | cons s rest ih =>
    by_cases hs : s.id = songId
    · have hid : ¬ s.id = readId := fun hc => h (hc ▸ hs)
      simp only [updateSongSyncStatus, if_pos hs, statusOf, if_neg hid]
    · simp only [updateSongSyncStatus, if_neg hs, statusOf]
      by_cases hid : s.id = readId
      · simp only [if_pos hid]
      · simp only [if_neg hid, ih]

theorem updateSongSyncStatus_map_id (queue : List QueuedSong) (songId : String)
    (pl : IntegrationPlatform) (st : SyncStatus) :
    (updateSongSyncStatus queue songId pl st).map QueuedSong.id = queue.map QueuedSong.id := by
  induction queue with
  | nil => rfl
  | cons s rest ih =>
    by_cases hs : s.id = songId
    · simp only [updateSongSyncStatus, if_pos hs, List.map_cons]
    · simp only [updateSongSyncStatus, if_neg hs, List.map_cons, ih]

theorem statusOf_update_self (queue : List QueuedSong) (songId : String)
    (pl : IntegrationPlatform) (st : SyncStatus)
    (h : songId ∈ queue.map QueuedSong.id) :
    statusOf (updateSongSyncStatus queue songId pl st) songId pl = some st := by
  induction queue with
  | nil => simp at h
  | cons s rest ih =>
    by_cases hs : s.id = songId
    · simp only [updateSongSyncStatus, if_pos hs, statusOf, if_pos hs,
        syncStatusMap_get_set_self]
    · simp only [List.map_cons, List.mem_cons] at h
      rcases h with h | h


      · exact absurd h.symm hs
      · simp only [updateSongSyncStatus, if_neg hs, statusOf, if_neg hs, ih h]

theorem syncSongToPlatform_store_cases (o : SyncOracle) (i : Option IntegrationsState)
    (song : QueuedSong) (p : IntegrationPlatform) (store : List QueuedSong) :
    (syncSongToPlatform o i song p store).store = store ∨
    ∃ st, (syncSongToPlatform o i song p store).store =
      updateSongSyncStatus store song.id p st := by
  rcases i with _ | integ
  · exact Or.inl rfl
  cases p with
  | spotify =>
    simp only [syncSongToPlatform]
    rcases o.getPlaylistTracks (integ.spotify.selectedPlaylistId.getD "undefined") with e | tracks
    · exact Or.inr ⟨_, rfl⟩
    rcases o.searchSong song.title song.artist with e | r
    · exact Or.inr ⟨_, rfl⟩
    rcases r with _ | r
    · exact Or.inr ⟨_, rfl⟩
    by_cases hc : tracks.contains r.trackId
    · simp only [if_pos hc]
      exact Or.inr ⟨_, rfl⟩
    simp only [if_neg hc]
    rcases o.addTracksToPlaylist (integ.spotify.selectedPlaylistId.getD "undefined") [r.trackId]
      with e | u
    · exact Or.inr ⟨_, rfl⟩
    · exact Or.inr ⟨_, rfl⟩
  | youtube =>
    simp only [syncSongToPlatform]
    rcases o.getPlaylistVideoIds (integ.youtube.selectedPlaylistId.getD "undefined") with e | vids
    · exact Or.inr ⟨_, rfl⟩
    rcases o.searchYouTubeVideo song.title song.artist with e | r
    · exact Or.inr ⟨_, rfl⟩
    rcases r with _ | r
    · exact Or.inr ⟨_, rfl⟩
    by_cases hc : vids.contains r.videoId
    · simp only [if_pos hc]
      exact Or.inr ⟨_, rfl⟩
    simp only [if_neg hc]
    rcases o.addVideoToPlaylist (integ.youtube.selectedPlaylistId.getD "undefined") r.videoId
      with e | u
    · exact Or.inr ⟨_, rfl⟩
    · exact Or.inr ⟨_, rfl⟩
  | apple_music => exact Or.inl rfl
  | amazon_music => exact Or.inl rfl

theorem statusOf_syncSongToPlatform_frame (o : SyncOracle) (i : Option IntegrationsState)
    (song : QueuedSong) (q : IntegrationPlatform) (store : List QueuedSong)
    (readId : String) (p : IntegrationPlatform)
    (h : p ≠ q ∨ readId ≠ song.id) :
    statusOf (syncSongToPlatform o i song q store).store readId p =
      statusOf store readId p := by
  rcases syncSongToPlatform_store_cases o i song q store with hs | ⟨st, hs⟩
  · rw [hs]
  · rw [hs]
    rcases h with h | h
    · exact statusOf_update_ne_platform store song.id readId q p st h
    · exact statusOf_update_ne_id store song.id readId q p st h

theorem statusOf_syncPlatformsForSong_preserved (o : SyncOracle)
    (i : Option IntegrationsState) (platforms : List IntegrationPlatform)
    (song : QueuedSong) (store : List QueuedSong) (p : IntegrationPlatform)
    (hp : syncedFlag song p = true) :
    statusOf (syncPlatformsForSong o i platforms song store).store song.id p =
      statusOf store song.id p := by
  induction platforms generalizing store with
  | nil => rfl
  | cons q rest ih =>
    by_cases hq : syncedFlag song q
    · simp only [syncPlatformsForSong, if_pos hq]
      exact ih store
    · simp only [syncPlatformsForSong, if_neg hq]
      rw [ih]
      exact statusOf_syncSongToPlatform_frame o i song q store song.id p
        (Or.inl (fun hpq => hq (hpq ▸ hp)))

theorem updateSongSyncStatus_no_match (queue : List QueuedSong) (songId : String)
    (p : IntegrationPlatform) (st : SyncStatus) (h : ∀ s ∈ queue, s.id ≠ songId) :
    updateSongSyncStatus queue songId p st = queue := by
  induction queue with
  | nil => rfl
  | cons a rest ih =>
    have ha : ¬ a.id = songId := h a (List.mem_cons_self a rest)
    simp only [updateSongSyncStatus, if_neg ha]
    rw [ih (fun s hs => h s (List.mem_cons_of_mem a hs))]

theorem updateSongSyncStatus_first_match (pre : List QueuedSong) (s : QueuedSong)
    (post : List QueuedSong) (songId : String) (p : IntegrationPlatform) (st : SyncStatus)
    (hpre : ∀ s' ∈ pre, s'.id ≠ songId) (hs : s.id = songId) :
    updateSongSyncStatus (pre ++ s :: post) songId p st =
      pre ++ { s with syncStatus := s.syncStatus.set p st } :: post := by
  induction pre with
  | nil => simp only [List.nil_append, updateSongSyncStatus, if_pos hs]
  | cons a pr ih =>
    have ha : ¬ a.id = songId := hpre a (List.mem_cons_self a pr)
    simp only [List.cons_append, updateSongSyncStatus, if_neg ha, List.append_eq]
    rw [ih (fun s' h' => hpre s' (List.mem_cons_of_mem a h'))]

theorem syncSongToPlatform_spotify_dedup (o : SyncOracle) (integ : IntegrationsState)
    (song : QueuedSong) (store : List QueuedSong) (tracks : List String)
    (r : SongSearchResult)
    (h1 : o.getPlaylistTracks (integ.spotify.selectedPlaylistId.getD "undefined") = .ok tracks)
    (h2 : o.searchSong song.title song.artist = .ok (some r))
    (h3 : tracks.contains r.trackId = true) :
    syncSongToPlatform o (some integ) song .spotify store =
      { store := updateSongSyncStatus store song.id .spotify
          { synced := true, trackId := some r.trackId }
        addCalls := 0 } := by
  simp only [syncSongToPlatform, h1, h2, h3, if_true]

theorem syncSongToPlatform_youtube_dedup (o : SyncOracle) (integ : IntegrationsState)
    (song : QueuedSong) (store : List QueuedSong) (vids : List String)
    (r : YouTubeSearchResult)
    (h1 : o.getPlaylistVideoIds (integ.youtube.selectedPlaylistId.getD "undefined") = .ok vids)
    (h2 : o.searchYouTubeVideo song.title song.artist = .ok (some r))
    (h3 : vids.contains r.videoId = true) :
    syncSongToPlatform o (some integ) song .youtube store =
      { store := updateSongSyncStatus store song.id .youtube
          { synced := true, videoId := some r.videoId }
        addCalls := 0 } := by
  simp only [syncSongToPlatform, h1, h2, h3, if_true]

theorem syncSongToPlatform_spotify_add (o : SyncOracle) (integ : IntegrationsState)
    (song : QueuedSong) (store : List QueuedSong) (tracks : List String)
    (r : SongSearchResult)
    (h1 : o.getPlaylistTracks (integ.spotify.selectedPlaylistId.getD "undefined") = .ok tracks)
    (h2 : o.searchSong song.title song.artist = .ok (some r))
    (h3 : tracks.contains r.trackId = false)
    (h4 : o.addTracksToPlaylist (integ.spotify.selectedPlaylistId.getD "undefined")
      [r.trackId] = .ok ()) :
    syncSongToPlatform o (some integ) song .spotify store =
      { store := updateSongSyncStatus store song.id .spotify
          { synced := true, trackId := some r.trackId }
        addCalls := 1 } := by
  simp only [syncSongToPlatform, h1, h2, h3, h4, Bool.false_eq_true, if_false]

theorem syncSongToPlatform_youtube_add (o : SyncOracle) (integ : IntegrationsState)
    (song : QueuedSong) (store : List QueuedSong) (vids : List String)
    (r : YouTubeSearchResult)
    (h1 : o.getPlaylistVideoIds (integ.youtube.selectedPlaylistId.getD "undefined") = .ok vids)
    (h2 : o.searchYouTubeVideo song.title song.artist = .ok (some r))
    (h3 : vids.contains r.videoId = false)
    (h4 : o.addVideoToPlaylist (integ.youtube.selectedPlaylistId.getD "undefined")
      r.videoId = .ok ()) :
    syncSongToPlatform o (some integ) song .youtube store =
      { store := updateSongSyncStatus store song.id .youtube
          { synced := true, videoId := some r.videoId }
        addCalls := 1 } := by
  simp only [syncSongToPlatform, h1, h2, h3, h4, Bool.false_eq_true, if_false]

/-- C1: the claim that `syncAllSongs` visits every song in queue order and
reconciles every not-yet-synced song × platform pair fails on the code. The
loop guard `if (syncing === false) break;` tests the `syncing` binding
captured by the handler's closure, which stays `false` for the whole
invocation (the `setSyncing(true)` call only affects later renders, and the
sync button is rendered with `disabled={syncing}`, so every reachable press
happens with `syncing = false`). The loop therefore exits before the first
song: for every oracle, integrations snapshot, queue and stored state, the
store is returned untouched and no add call is issued — in particular, in the
3-song scenario, songs 1 and 3 are not marked synced and song 2 records no
error. -/
theorem syncAllSongs_stale_flag_breaks_immediately (o : SyncOracle)
    (integrations : Option IntegrationsState) (queue store : List QueuedSong) :
    syncAllSongs o integrations false queue store = { store := store, addCalls := 0 } := by
  simp only [syncAllSongs]
  split
  · rfl
  · cases queue with
    | nil => rfl
    | cons s rest => simp [syncAllSongsLoop]

/-- C2: once the stored sync status of a song for a platform is
`synced = true` (with its remote id recorded in the same entry), a later
`syncSingleSong` run — whatever the oracle does, including every failure —
leaves that entry exactly as it was: `synced` is never reset to `false` and
the remote id is never cleared. The hypotheses say the component snapshot of
the song agrees with the store on that entry, which is how every reachable
invocation passes a song of the freshly loaded queue. -/
theorem syncSingleSong_no_downgrade (o : SyncOracle)
    (integrations : Option IntegrationsState) (song : QueuedSong)
    (store : List QueuedSong) (p : IntegrationPlatform) (st : SyncStatus)
    (hsnap : song.syncStatus.get p = some st)
    (hsync : st.synced = true)
    (hstore : statusOf store song.id p = some st) :
    statusOf (syncSingleSong o integrations song store).store song.id p = some st := by
  have hflag : syncedFlag song p = true := by
    unfold syncedFlag
    rw [hsnap]
    exact hsync
  simp only [syncSingleSong]
  split
  · exact hstore
  · rw [statusOf_syncPlatformsForSong_preserved o integrations _ song store p hflag]
    exact hstore

/-- Witness for the no-downgrade theorem: a song synced to Spotify as `T1`
keeps `synced = true` and `remoteId = T1` across a retry in which every
network call rejects. -/
theorem syncSingleSong_no_downgrade_witness :
    statusOf (syncSingleSong wOracleDown (some wIntegrations) wSongSynced
      [wSongSynced]).store wSongSynced.id .spotify = some wSyncedSt :=
  syncSingleSong_no_downgrade wOracleDown (some wIntegrations) wSongSynced
    [wSongSynced] .spotify wSyncedSt rfl rfl (by decide)

/-- C8 counterexample: the claim says a failed durable read aborts the store
operation and propagates the error; on the code, each of the three getters
catches the failure and resolves with its default value instead. -/
theorem storeGetters_swallow_failure_cx :
    getSongQueue (.error "storage unavailable") = .ok [] ∧
    getIntegrations (.error "storage unavailable") = .ok DEFAULT_INTEGRATIONS ∧
    getFlaggedImages (.error "storage unavailable") = .ok [] :=
  ⟨rfl, rfl, rfl⟩

/-- C8 (amended): a failure of the underlying durable read is caught inside
`getSongQueue`, `getIntegrations` and `getFlaggedImages`, which resolve with
the empty queue, `DEFAULT_INTEGRATIONS` and the empty flagged list
respectively; the failure is never propagated to the caller. -/
theorem storeGetters_default_on_read_failure (e : String) :
    getSongQueue (.error e) = .ok [] ∧
    getIntegrations (.error e) = .ok DEFAULT_INTEGRATIONS ∧
    getFlaggedImages (.error e) = .ok [] :=
  ⟨rfl, rfl, rfl⟩

/-- C9: `updateSongSyncStatus` is a no-op (and raises no error) when no song
carries `songId`; otherwise it rewrites exactly the `(songId, platform)` entry
of the first matching song — every other song is returned unchanged, and every
other platform entry of the matching song is preserved. -/
theorem updateSongSyncStatus_frame (queue : List QueuedSong) (songId : String)
    (p : IntegrationPlatform) (st : SyncStatus) :
    ((∀ s ∈ queue, s.id ≠ songId) → updateSongSyncStatus queue songId p st = queue) ∧
    (∀ pre s post, queue = pre ++ s :: post →
      (∀ s' ∈ pre, s'.id ≠ songId) → s.id = songId →
      updateSongSyncStatus queue songId p st =
        pre ++ { s with syncStatus := s.syncStatus.set p st } :: post ∧
      (s.syncStatus.set p st).get p = some st ∧
      ∀ q, q ≠ p → (s.syncStatus.set p st).get q = s.syncStatus.get q) := by
  refine ⟨updateSongSyncStatus_no_match queue songId p st, ?_⟩
  intro pre s post hq hpre hs
  subst hq
  exact ⟨updateSongSyncStatus_first_match pre s post songId p st hpre hs,
    syncStatusMap_get_set_self s.syncStatus p st,
    fun q hq => syncStatusMap_get_set_ne s.syncStatus p q st hq⟩

/-- Witness for the frame theorem: an absent id leaves a concrete queue
unchanged; a present id rewrites only the matching song's targeted platform
entry, and that song's other platform entries are untouched. -/
theorem updateSongSyncStatus_frame_witness :
    updateSongSyncStatus [wSongSynced] "zzz" .spotify wSyncedSt = [wSongSynced] ∧
    updateSongSyncStatus [wSongSynced, wSongFresh] "s2" .youtube wSyncedSt =
      [wSongSynced,
        { wSongFresh with syncStatus := wSongFresh.syncStatus.set .youtube wSyncedSt }] ∧
    (wSongFresh.syncStatus.set .youtube wSyncedSt).get .spotify =
      wSongFresh.syncStatus.get .spotify := by
  refine ⟨(updateSongSyncStatus_frame [wSongSynced] "zzz" .spotify wSyncedSt).1 ?_, ?_, ?_⟩
  · intro s hs
    simp only [List.mem_singleton] at hs
    subst hs
    decide
  · exact ((updateSongSyncStatus_frame [wSongSynced, wSongFresh] "s2" .youtube
      wSyncedSt).2 [wSongSynced] wSongFresh [] rfl
      (by intro s' h'; simp only [List.mem_singleton] at h'; subst h'; decide) (by decide)).1
  · exact ((updateSongSyncStatus_frame [wSongSynced, wSongFresh] "s2" .youtube
      wSyncedSt).2 [wSongSynced] wSongFresh [] rfl
      (by intro s' h'; simp only [List.mem_singleton] at h'; subst h'; decide) (by decide)).2.2
      .spotify (by decide)

/-- C3: when the freshly fetched playlist membership already contains the
remote id returned by the catalog search for `(title, artist)`,
`syncSongToPlatform` writes `{ synced: true, remoteId }` for that platform
and issues no add-to-playlist call — for the Spotify branch and the YouTube
branch alike. -/
theorem syncSongToPlatform_dedup_no_add (o : SyncOracle) (integ : IntegrationsState)
    (song : QueuedSong) (store : List QueuedSong) :
    (∀ tracks r,
      o.getPlaylistTracks (integ.spotify.selectedPlaylistId.getD "undefined") = .ok tracks →
      o.searchSong song.title song.artist = .ok (some r) →
      tracks.contains r.trackId = true →
      syncSongToPlatform o (some integ) song .spotify store =
        { store := updateSongSyncStatus store song.id .spotify
            { synced := true, trackId := some r.trackId }
          addCalls := 0 }) ∧
    (∀ vids r,
      o.getPlaylistVideoIds (integ.youtube.selectedPlaylistId.getD "undefined") = .ok vids →
      o.searchYouTubeVideo song.title song.artist = .ok (some r) →
      vids.contains r.videoId = true →
      syncSongToPlatform o (some integ) song .youtube store =
        { store := updateSongSyncStatus store song.id .youtube
            { synced := true, videoId := some r.videoId }
          addCalls := 0 }) :=
  ⟨fun tracks r h1 h2 h3 =>
    syncSongToPlatform_spotify_dedup o integ song store tracks r h1 h2 h3,
   fun vids r h1 h2 h3 =>
    syncSongToPlatform_youtube_dedup o integ song store vids r h1 h2 h3⟩

/-- Witness for the dedup theorem: with playlist `P1` already holding `T1` /
`V1` and search returning the same ids, both branches record the sync without
issuing an add call. -/
theorem syncSongToPlatform_dedup_no_add_witness :
    syncSongToPlatform wOracleDup (some wIntegrations) wSongFresh .spotify [wSongFresh] =
      { store := updateSongSyncStatus [wSongFresh] wSongFresh.id .spotify
          { synced := true, trackId := some "T1" }
        addCalls := 0 } ∧
    syncSongToPlatform wOracleDup (some wIntegrations) wSongFresh .youtube [wSongFresh] =
      { store := updateSongSyncStatus [wSongFresh] wSongFresh.id .youtube
          { synced := true, videoId := some "V1" }
        addCalls := 0 } :=
  ⟨(syncSongToPlatform_dedup_no_add wOracleDup wIntegrations wSongFresh [wSongFresh]).1
      ["T1"] _ rfl rfl (by decide),
   (syncSongToPlatform_dedup_no_add wOracleDup wIntegrations wSongFresh [wSongFresh]).2
      ["V1"] _ rfl rfl (by decide)⟩

/-- C4: running the single-pair reconciliation twice in a row with no external
state change — the second run fetches a membership that reflects the first
run's add, and the search returns the same result — leaves the song's entry
at `synced = true` after both runs, issues at most one add call across the
two runs, and the second run issues none. Stated for the Spotify branch and
the YouTube branch; `o` serves the first run and `o2` the second. -/
theorem syncSongToPlatform_idempotent (o o2 : SyncOracle) (integ : IntegrationsState)
    (song : QueuedSong) (store : List QueuedSong) :
    (∀ tracks tracks2 r,
      song.id ∈ store.map QueuedSong.id →
      o.getPlaylistTracks (integ.spotify.selectedPlaylistId.getD "undefined") = .ok tracks →
      o.searchSong song.title song.artist = .ok (some r) →
      o.addTracksToPlaylist (integ.spotify.selectedPlaylistId.getD "undefined")
        [r.trackId] = .ok () →
      o2.getPlaylistTracks (integ.spotify.selectedPlaylistId.getD "undefined") = .ok tracks2 →
      o2.searchSong song.title song.artist = .ok (some r) →
      tracks2.contains r.trackId = true →
      statusOf (syncSongToPlatform o (some integ) song .spotify store).store
          song.id .spotify = some { synced := true, trackId := some r.trackId } ∧
      statusOf (syncSongToPlatform o2 (some integ) song .spotify
          (syncSongToPlatform o (some integ) song .spotify store).store).store
          song.id .spotify = some { synced := true, trackId := some r.trackId } ∧
      (syncSongToPlatform o (some integ) song .spotify store).addCalls +
        (syncSongToPlatform o2 (some integ) song .spotify
          (syncSongToPlatform o (some integ) song .spotify store).store).addCalls ≤ 1 ∧
      (syncSongToPlatform o2 (some integ) song .spotify
        (syncSongToPlatform o (some integ) song .spotify store).store).addCalls = 0) ∧
    (∀ vids vids2 r,
      song.id ∈ store.map QueuedSong.id →
      o.getPlaylistVideoIds (integ.youtube.selectedPlaylistId.getD "undefined") = .ok vids →
      o.searchYouTubeVideo song.title song.artist = .ok (some r) →
      o.addVideoToPlaylist (integ.youtube.selectedPlaylistId.getD "undefined")
        r.videoId = .ok () →
      o2.getPlaylistVideoIds (integ.youtube.selectedPlaylistId.getD "undefined") = .ok vids2 →
      o2.searchYouTubeVideo song.title song.artist = .ok (some r) →
      vids2.contains r.videoId = true →
      statusOf (syncSongToPlatform o (some integ) song .youtube store).store
          song.id .youtube = some { synced := true, videoId := some r.videoId } ∧
      statusOf (syncSongToPlatform o2 (some integ) song .youtube
          (syncSongToPlatform o (some integ) song .youtube store).store).store
          song.id .youtube = some { synced := true, videoId := some r.videoId } ∧
      (syncSongToPlatform o (some integ) song .youtube store).addCalls +
        (syncSongToPlatform o2 (some integ) song .youtube
          (syncSongToPlatform o (some integ) song .youtube store).store).addCalls ≤ 1 ∧
      (syncSongToPlatform o2 (some integ) song .youtube
        (syncSongToPlatform o (some integ) song .youtube store).store).addCalls = 0) := by
  constructor
  · intro tracks tracks2 r hmem h1 h2 h3 h4 h5 h6
    have e1 : syncSongToPlatform o (some integ) song .spotify store =
        { store := updateSongSyncStatus store song.id .spotify
            { synced := true, trackId := some r.trackId }
          addCalls := if tracks.contains r.trackId then 0 else 1 } := by
      cases hck : tracks.contains r.trackId with
      | false =>
        simp only [hck, Bool.false_eq_true, if_false]
        exact syncSongToPlatform_spotify_add o integ song store tracks r h1 h2 hck h3
      | true =>
        simp only [hck, if_true]
        exact syncSongToPlatform_spotify_dedup o integ song store tracks r h1 h2 hck
    rw [e1]
    have hmem2 : song.id ∈ (updateSongSyncStatus store song.id .spotify
        { synced := true, trackId := some r.trackId }).map QueuedSong.id := by
      rw [updateSongSyncStatus_map_id]
      exact hmem
    have e2 := syncSongToPlatform_spotify_dedup o2 integ song
      (updateSongSyncStatus store song.id .spotify
        { synced := true, trackId := some r.trackId }) tracks2 r h4 h5 h6
    rw [e2]
    refine ⟨statusOf_update_self store song.id .spotify _ hmem, ?_, ?_, rfl⟩
    · exact statusOf_update_self _ song.id .spotify _ hmem2
    · cases tracks.contains r.trackId <;> simp
  · intro vids vids2 r hmem h1 h2 h3 h4 h5 h6
    have e1 : syncSongToPlatform o (some integ) song .youtube store =
        { store := updateSongSyncStatus store song.id .youtube
            { synced := true, videoId := some r.videoId }
          addCalls := if vids.contains r.videoId then 0 else 1 } := by
      cases hck : vids.contains r.videoId with
      | false =>
        simp only [hck, Bool.false_eq_true, if_false]
        exact syncSongToPlatform_youtube_add o integ song store vids r h1 h2 hck h3
      | true =>
        simp only [hck, if_true]
        exact syncSongToPlatform_youtube_dedup o integ song store vids r h1 h2 hck
    rw [e1]
    have hmem2 : song.id ∈ (updateSongSyncStatus store song.id .youtube
        { synced := true, videoId := some r.videoId }).map QueuedSong.id := by
      rw [updateSongSyncStatus_map_id]
      exact hmem
    have e2 := syncSongToPlatform_youtube_dedup o2 integ song
      (updateSongSyncStatus store song.id .youtube
        { synced := true, videoId := some r.videoId }) vids2 r h4 h5 h6
    rw [e2]
    refine ⟨statusOf_update_self store song.id .youtube _ hmem, ?_, ?_, rfl⟩
    · exact statusOf_update_self _ song.id .youtube _ hmem2
    · cases vids.contains r.videoId <;> simp

/-- Witness for the idempotence theorem: a fresh song, first run against an
empty playlist (membership `[]`, add succeeds), second run against the
membership `[T1]` / `[V1]` left by that add. -/
theorem syncSongToPlatform_idempotent_witness :
    (statusOf (syncSongToPlatform wOracleDup (some wIntegrations) wSongFresh .spotify
        (syncSongToPlatform wOracleEmptyPl (some wIntegrations) wSongFresh .spotify
          [wSongFresh]).store).store wSongFresh.id .spotify =
      some { synced := true, trackId := some "T1" }) ∧
    ((syncSongToPlatform wOracleEmptyPl (some wIntegrations) wSongFresh .spotify
        [wSongFresh]).addCalls +
      (syncSongToPlatform wOracleDup (some wIntegrations) wSongFresh .spotify
        (syncSongToPlatform wOracleEmptyPl (some wIntegrations) wSongFresh .spotify
          [wSongFresh]).store).addCalls ≤ 1) ∧
    (statusOf (syncSongToPlatform wOracleDup (some wIntegrations) wSongFresh .youtube
        (syncSongToPlatform wOracleEmptyPl (some wIntegrations) wSongFresh .youtube
          [wSongFresh]).store).store wSongFresh.id .youtube =
      some { synced := true, videoId := some "V1" }) := by
  have hs := (syncSongToPlatform_idempotent wOracleEmptyPl wOracleDup wIntegrations
    wSongFresh [wSongFresh]).1 [] ["T1"] _ (by decide) rfl rfl rfl rfl rfl (by decide)
  have hy := (syncSongToPlatform_idempotent wOracleEmptyPl wOracleDup wIntegrations
    wSongFresh [wSongFresh]).2 [] ["V1"] _ (by decide) rfl rfl rfl rfl rfl (by decide)
  exact ⟨hs.2.1, hs.2.2.1, hy.2.1⟩

/-- C5: a rejection of the membership fetch, of the catalog search, or of the
add call is caught by `syncSongToPlatform` and converted into a
`{ synced: false, error }` status write for that song and platform; in every
case the function hands its caller an ordinary `SyncRunResult` (the written
store) rather than propagating the exception. -/
theorem syncSongToPlatform_converts_exceptions (o : SyncOracle)
    (integ : IntegrationsState) (song : QueuedSong) (store : List QueuedSong)
    (e : String) :
    (o.getPlaylistTracks (integ.spotify.selectedPlaylistId.getD "undefined") = .error e →
      syncSongToPlatform o (some integ) song .spotify store =
        { store := updateSongSyncStatus store song.id .spotify
            { synced := false, error := some e }
          addCalls := 0 }) ∧
    (∀ tracks,
      o.getPlaylistTracks (integ.spotify.selectedPlaylistId.getD "undefined") = .ok tracks →
      o.searchSong song.title song.artist = .error e →
      syncSongToPlatform o (some integ) song .spotify store =
        { store := updateSongSyncStatus store song.id .spotify
            { synced := false, error := some e }
          addCalls := 0 }) ∧
    (∀ tracks r,
      o.getPlaylistTracks (integ.spotify.selectedPlaylistId.getD "undefined") = .ok tracks →
      o.searchSong song.title song.artist = .ok (some r) →
      tracks.contains r.trackId = false →
      o.addTracksToPlaylist (integ.spotify.selectedPlaylistId.getD "undefined")
        [r.trackId] = .error e →
      syncSongToPlatform o (some integ) song .spotify store =
        { store := updateSongSyncStatus store song.id .spotify
            { synced := false, error := some e }
          addCalls := 1 }) ∧
    (o.getPlaylistVideoIds (integ.youtube.selectedPlaylistId.getD "undefined") = .error e →
      syncSongToPlatform o (some integ) song .youtube store =
        { store := updateSongSyncStatus store song.id .youtube
            { synced := false, error := some e }
          addCalls := 0 }) ∧
    (∀ vids,
      o.getPlaylistVideoIds (integ.youtube.selectedPlaylistId.getD "undefined") = .ok vids →
      o.searchYouTubeVideo song.title song.artist = .error e →
      syncSongToPlatform o (some integ) song .youtube store =
        { store := updateSongSyncStatus store song.id .youtube
            { synced := false, error := some e }
          addCalls := 0 }) ∧
    (∀ vids r,
      o.getPlaylistVideoIds (integ.youtube.selectedPlaylistId.getD "undefined") = .ok vids →
      o.searchYouTubeVideo song.title song.artist = .ok (some r) →
      vids.contains r.videoId = false →
      o.addVideoToPlaylist (integ.youtube.selectedPlaylistId.getD "undefined")
        r.videoId = .error e →
      syncSongToPlatform o (some integ) song .youtube store =
        { store := updateSongSyncStatus store song.id .youtube
            { synced := false, error := some e }
          addCalls := 1 }) := by
  refine ⟨fun h1 => ?_, fun tracks h1 h2 => ?_, fun tracks r h1 h2 h3 h4 => ?_,
    fun h1 => ?_, fun vids h1 h2 => ?_, fun vids r h1 h2 h3 h4 => ?_⟩
  · simp only [syncSongToPlatform, h1]
  · simp only [syncSongToPlatform, h1, h2]
  · simp only [syncSongToPlatform, h1, h2, h3, h4, Bool.false_eq_true, if_false]
  · simp only [syncSongToPlatform, h1]
  · simp only [syncSongToPlatform, h1, h2]
  · simp only [syncSongToPlatform, h1, h2, h3, h4, Bool.false_eq_true, if_false]

/-- Witness for the exception-conversion theorem: each of the six failure
points, exercised on a concrete song and store, ends in the corresponding
error-status write. -/
theorem syncSongToPlatform_converts_exceptions_witness :
    syncSongToPlatform wOracleDown (some wIntegrations) wSongFresh .spotify [wSongFresh] =
      { store := updateSongSyncStatus [wSongFresh] wSongFresh.id .spotify
          { synced := false, error := some "network down" }
        addCalls := 0 } ∧
    syncSongToPlatform wOracleSearchFail (some wIntegrations) wSongFresh .spotify [wSongFresh] =
      { store := updateSongSyncStatus [wSongFresh] wSongFresh.id .spotify
          { synced := false, error := some "Search failed" }
        addCalls := 0 } ∧
    syncSongToPlatform wOracleAddFail (some wIntegrations) wSongFresh .spotify [wSongFresh] =
      { store := updateSongSyncStatus [wSongFresh] wSongFresh.id .spotify
          { synced := false, error := some "Failed to add tracks" }
        addCalls := 1 } ∧
    syncSongToPlatform wOracleDown (some wIntegrations) wSongFresh .youtube [wSongFresh] =
      { store := updateSongSyncStatus [wSongFresh] wSongFresh.id .youtube
          { synced := false, error := some "network down" }
        addCalls := 0 } ∧
    syncSongToPlatform wOracleSearchFail (some wIntegrations) wSongFresh .youtube [wSongFresh] =
      { store := updateSongSyncStatus [wSongFresh] wSongFresh.id .youtube
          { synced := false, error := some "YouTube search failed" }
        addCalls := 0 } ∧
    syncSongToPlatform wOracleAddFail (some wIntegrations) wSongFresh .youtube [wSongFresh] =
      { store := updateSongSyncStatus [wSongFresh] wSongFresh.id .youtube
          { synced := false, error := some "Failed to add video to playlist" }
        addCalls := 1 } :=
  ⟨(syncSongToPlatform_converts_exceptions wOracleDown wIntegrations wSongFresh
      [wSongFresh] "network down").1 rfl,
   ((syncSongToPlatform_converts_exceptions wOracleSearchFail wIntegrations wSongFresh
      [wSongFresh] "Search failed").2.1 ["T1"] rfl rfl),
   ((syncSongToPlatform_converts_exceptions wOracleAddFail wIntegrations wSongFresh
      [wSongFresh] "Failed to add tracks").2.2.1 [] _ rfl rfl (by decide) rfl),
   ((syncSongToPlatform_converts_exceptions wOracleDown wIntegrations wSongFresh
      [wSongFresh] "network down").2.2.2.1 rfl),
   ((syncSongToPlatform_converts_exceptions wOracleSearchFail wIntegrations wSongFresh
      [wSongFresh] "YouTube search failed").2.2.2.2.1 ["V1"] rfl rfl),
   ((syncSongToPlatform_converts_exceptions wOracleAddFail wIntegrations wSongFresh
      [wSongFresh] "Failed to add video to playlist").2.2.2.2.2 [] _ rfl rfl (by decide) rfl)⟩

theorem intakeLoop_eq (detect : String → Except String SongDetectionResult)
    (images : List String) :
    intakeLoop detect images =
      ((images.map (fun u => (intakeImage detect u).flags.map
          (fun f => IntakeEvent.flag f.1 f.2))).flatten,
       (images.map (fun u => (intakeImage detect u).songsToAdd)).flatten) := by
  induction images with
  | nil => rfl
  | cons u rest ih => simp only [intakeLoop, ih, List.map_cons, List.flatten_cons]

/-- C6: one loop iteration of the batch intake pipeline (the capture
screen's `startProcessing`, the pipeline that stages detected songs for the
song queue store) flags its image exactly once precisely when detection
rejects, reports failure, or returns zero songs; a detection that succeeds
with at least one song produces no flag; an image never produces more than
one flag; and a flagged image contributes no songs to the staged batch. -/
theorem intakeImage_flag_iff (detect : String → Except String SongDetectionResult)
    (imageUri : String) :
    ((intakeImage detect imageUri).flags.length = 1 ↔
      (∃ e, detect imageUri = .error e) ∨
      (∃ d, detect imageUri = .ok d ∧ (d.success = false ∨ d.songs = []))) ∧
    ((intakeImage detect imageUri).flags = [] ∨
      (intakeImage detect imageUri).songsToAdd = []) ∧
    (intakeImage detect imageUri).flags.length ≤ 1 := by
  rcases hd : detect imageUri with msg | d
  · exact ⟨iff_of_true (by simp [intakeImage, hd]) (Or.inl ⟨msg, rfl⟩),
      Or.inr (by simp [intakeImage, hd]), by simp [intakeImage, hd]⟩
  · cases hc : d.success && !d.songs.isEmpty with
    | true =>
      have hflags : (intakeImage detect imageUri).flags = [] := by
        simp only [intakeImage, hd, hc, if_true]
      refine ⟨iff_of_false (by rw [hflags]; simp) ?_, Or.inl hflags, by rw [hflags]; simp⟩
      rintro (⟨e, he⟩ | ⟨d2, hd2, hbad⟩)
      · exact absurd he (by simp)
      · injection hd2 with h
        subst h
        rcases hbad with hb | hb
        · rw [hb] at hc
          simp at hc
        · rw [hb] at hc
          simp at hc
    | false =>
      have hflags : (intakeImage detect imageUri).flags =
          [(imageUri, d.error.getD "No songs detected")] := by
        simp only [intakeImage, hd, hc, Bool.false_eq_true, if_false]
      have hbad : d.success = false ∨ d.songs = [] := by
        cases hs : d.success with
        | false => exact Or.inl rfl
        | true =>
          rw [hs, Bool.true_and] at hc
          refine Or.inr ?_
          cases hse : d.songs.isEmpty with
          | true => exact List.isEmpty_iff.mp hse
          | false => rw [hse] at hc; simp at hc
      exact ⟨iff_of_true (by rw [hflags]; rfl) (Or.inr ⟨d, rfl, hbad⟩),
        Or.inr (by simp only [intakeImage, hd, hc, Bool.false_eq_true, if_false]),
        by rw [hflags]; simp⟩

/-- Witness for the flagging theorem: a rejecting detection adapter yields
exactly one flag and stages no song. -/
theorem intakeImage_flag_iff_witness :
    (intakeImage wDetectThrow "img1").flags.length = 1 ∧
    ((intakeImage wDetectThrow "img1").flags = [] ∨
      (intakeImage wDetectThrow "img1").songsToAdd = []) :=
  ⟨(intakeImage_flag_iff wDetectThrow "img1").1.mpr (Or.inl ⟨"Detection failed", rfl⟩),
   (intakeImage_flag_iff wDetectThrow "img1").2.1⟩

/-- C7: the trace of the batch intake pipeline is the per-image flag events
in image order followed — only when at least one song was staged — by a
single `appendBatch` carrying exactly the songs of all successfully processed
images, in order; the flag prefix contains no append, and the whole trace
contains at most one append, so songs are never appended mid-batch or one
image at a time. -/
theorem startProcessing_single_append (detect : String → Except String SongDetectionResult)
    (images : List String) :
    (startProcessing detect images =
      (images.map (fun u => (intakeImage detect u).flags.map
        (fun f => IntakeEvent.flag f.1 f.2))).flatten ++
      (if ((images.map (fun u => (intakeImage detect u).songsToAdd)).flatten).isEmpty then []
       else [IntakeEvent.appendBatch
         ((images.map (fun u => (intakeImage detect u).songsToAdd)).flatten)])) ∧
    ((images.map (fun u => (intakeImage detect u).flags.map
        (fun f => IntakeEvent.flag f.1 f.2))).flatten.countP IntakeEvent.isAppend = 0) ∧
    ((startProcessing detect images).countP IntakeEvent.isAppend ≤ 1) := by
  have hloop := intakeLoop_eq detect images
  have hflags : (images.map (fun u => (intakeImage detect u).flags.map
      (fun f => IntakeEvent.flag f.1 f.2))).flatten.countP IntakeEvent.isAppend = 0 := by
    refine List.countP_eq_zero.mpr ?_
    intro e he
    rcases List.mem_flatten.mp he with ⟨l, hl, hel⟩
    rcases List.mem_map.mp hl with ⟨u, hu, rfl⟩
    rcases List.mem_map.mp hel with ⟨f, hf, rfl⟩
    simp [IntakeEvent.isAppend]
  have hmain : startProcessing detect images =
      (images.map (fun u => (intakeImage detect u).flags.map
        (fun f => IntakeEvent.flag f.1 f.2))).flatten ++
      (if ((images.map (fun u => (intakeImage detect u).songsToAdd)).flatten).isEmpty then []
       else [IntakeEvent.appendBatch
         ((images.map (fun u => (intakeImage detect u).songsToAdd)).flatten)]) := by
    simp only [startProcessing, hloop]
  refine ⟨hmain, hflags, ?_⟩
  rw [hmain, List.countP_append, hflags]
  cases ((images.map (fun u => (intakeImage detect u).songsToAdd)).flatten).isEmpty with
  | true => simp
  | false => simp [List.countP_cons, IntakeEvent.isAppend]

/-- C10: `addFlaggedImage` derives the record id from the millisecond clock
(`Date.now().toString()`), so two images flagged within the same millisecond
share one id, and `removeFlaggedImage` with that id filters out every record
bearing it — both new records (and any pre-existing record with the same id)
are removed, not just one. -/
theorem flaggedImage_id_collision (flagged : List FlaggedImage) (now : Nat)
    (u1 e1 u2 e2 : String) :
    addFlaggedImage (addFlaggedImage flagged now u1 e1) now u2 e2 =
      flagged ++
        [{ id := toString now, imageUri := u1, error := e1, timestamp := now },
         { id := toString now, imageUri := u2, error := e2, timestamp := now }] ∧
    removeFlaggedImage (addFlaggedImage (addFlaggedImage flagged now u1 e1) now u2 e2)
        (toString now) =
      removeFlaggedImage flagged (toString now) := by
  constructor
  · simp [addFlaggedImage]
  · simp [removeFlaggedImage, addFlaggedImage, List.filter_append]

end SnapTrack
